import Mathlib

/-!
Shallow embedding of the error-classification-and-recovery decision engine of
the feeding_hearts repository
(src/backend/django-ai-ml/error_logging/ai_error_recovery.py and the channel
selection of src/backend/django-ai-ml/error_logging/services.py).

Machine reals (Python floats used only for confidences and rates) are modelled
as rationals; wall-clock timestamps are threaded in as an explicit `now : Nat`
parameter; Python dictionaries with fixed key sets become structures; the
pluggable strategy executors are modelled by an explicit behaviour function
deciding, per action, whether the executor returns a result or raises.
-/

namespace FeedingHearts

/-- The `RecoveryStrategy` enum of ai_error_recovery.py. -/
inductive RecoveryStrategy where
  | retry
  | timeout_increase
  | cache_clear
  | pool_increase
  | resource_scale
  | circuit_break
  | fallback
  | queue_priority
  | request_throttle
  | service_restart
deriving DecidableEq

/-- The `.value` string of each `RecoveryStrategy` member. -/
def RecoveryStrategy.value : RecoveryStrategy → String
  | .retry => "retry"
  | .timeout_increase => "timeout_increase"
  | .cache_clear => "cache_clear"
  | .pool_increase => "pool_increase"
  | .resource_scale => "resource_scale"
  | .circuit_break => "circuit_break"
  | .fallback => "fallback"
  | .queue_priority => "queue_priority"
  | .request_throttle => "request_throttle"
  | .service_restart => "service_restart"

/-- The `RecoveryPriority` enum (CRITICAL=1, HIGH=2, MEDIUM=3, LOW=4). -/
inductive RecoveryPriority where
  | CRITICAL
  | HIGH
  | MEDIUM
  | LOW
deriving DecidableEq

/-- The `.name` string of each `RecoveryPriority` member. -/
def RecoveryPriority.name : RecoveryPriority → String
  | .CRITICAL => "CRITICAL"
  | .HIGH => "HIGH"
  | .MEDIUM => "MEDIUM"
  | .LOW => "LOW"

/-- The fields of an ErrorLog record that ai_error_recovery.py reads
(`error_id`, `error_type`, `service`, `severity`, `timestamp`, `frequency`)
together with the free-form context mapping of the spec's ErrorEvent. -/
structure ErrorLog where
  error_id : String
  error_type : String
  service : String
  severity : String
  timestamp : String
  frequency : Nat
  context : List (String × String)
deriving DecidableEq

/-- `ErrorAnalyzer.ERROR_RECOVERY_MAP`: the fixed category table, as the
lookup function `dict.get` performs on it (`none` for a key not present). -/
def ERROR_RECOVERY_MAP (error_type : String) : Option (List RecoveryStrategy) :=
  if error_type = "DatabaseError" then
    some [.pool_increase, .timeout_increase, .cache_clear]
  else if error_type = "TimeoutError" then
    some [.timeout_increase, .resource_scale, .cache_clear]
  else if error_type = "MemoryError" then
    some [.resource_scale, .cache_clear, .queue_priority]
  else if error_type = "ConnectionError" then
    some [.retry, .circuit_break, .fallback]
  else if error_type = "ValidationError" then
    some [.fallback, .request_throttle]
  else if error_type = "AuthenticationError" then
    some [.retry, .request_throttle]
  else if error_type = "APIError" then
    some [.retry, .timeout_increase, .fallback]
  else if error_type = "ServiceUnavailableError" then
    some [.retry, .circuit_break, .service_restart]
  else
    none

/-- `ErrorAnalyzer._get_recovery_strategies`: table lookup with default
`[RETRY, FALLBACK]`. -/
def get_recovery_strategies (e : ErrorLog) : List RecoveryStrategy :=
  (ERROR_RECOVERY_MAP e.error_type).getD [.retry, .fallback]

/-- The dictionary `_detect_pattern` returns on a match. -/
structure Pattern where
  type_ : String
  priority : RecoveryPriority
deriving DecidableEq

/-- `ErrorAnalyzer._detect_pattern`. -/
def detect_pattern (e : ErrorLog) : Option Pattern :=
  if e.severity = "critical" then
    some { type_ := "critical_error", priority := .CRITICAL }
  else if e.frequency > 3 then
    some { type_ := "repeated_errors", priority := .HIGH }
  else
    none

/-- The `severity_multipliers.get(severity, 0)` lookup inside
`_calculate_confidence`. -/
def severity_multiplier (severity : String) : ℚ :=
  if severity = "critical" then 0.25
  else if severity = "high" then 0.15
  else if severity = "medium" then 0.05
  else if severity = "low" then 0
  else 0

/-- The running `confidence` accumulator of `_calculate_confidence` just
before the final cap: base 0.5, plus 0.2 for a known error type, plus the
severity bonus. -/
def confidence_raw (e : ErrorLog) : ℚ :=
  0.5 + (if (ERROR_RECOVERY_MAP e.error_type).isSome then 0.2 else 0)
    + severity_multiplier e.severity

/-- `ErrorAnalyzer._calculate_confidence`. Python's `min(0.95, confidence)`
is written out as its conditional (returning the first argument on ties),
which is kernel-computable. -/
def calculate_confidence (e : ErrorLog) : ℚ :=
  if (0.95 : ℚ) ≤ confidence_raw e then 0.95 else confidence_raw e

/-- `ErrorAnalyzer._get_action_priority`. -/
def get_action_priority (e : ErrorLog) (index : Nat) : RecoveryPriority :=
  if e.severity = "critical" then .CRITICAL
  else if e.severity = "high" then
    (if index = 0 then .HIGH else .MEDIUM)
  else
    (if index = 0 then .MEDIUM else .LOW)

/-- Heterogeneous parameter values appearing in the strategy parameter
templates. -/
inductive PVal where
  | nat (n : Nat)
  | bool (b : Bool)
  | str (s : String)
  | rat (q : ℚ)
deriving DecidableEq

/-- `ErrorAnalyzer._get_fallback_service`. -/
def get_fallback_service (e : ErrorLog) : String :=
  if e.service = "django" then "laravel"
  else if e.service = "laravel" then "django"
  else if e.service = "java" then "react"
  else if e.service = "react" then "angular"
  else if e.service = "angular" then "vue"
  else if e.service = "vue" then "flutter"
  else if e.service = "flutter" then "react"
  else "api-gateway"

/-- `ErrorAnalyzer._get_strategy_parameters`: fixed per-strategy templates. -/
def get_strategy_parameters (e : ErrorLog) : RecoveryStrategy → List (String × PVal)
  | .retry =>
    [("max_retries", .nat 3), ("retry_delay_ms", .nat 1000),
     ("exponential_backoff", .bool true)]
  | .timeout_increase =>
    [("current_timeout_ms", .nat 5000), ("new_timeout_ms", .nat 15000),
     ("increment_percent", .nat 200)]
  | .cache_clear =>
    [("cache_type", .str "redis"), ("clear_pattern", .str "*"),
     ("graceful", .bool true)]
  | .pool_increase =>
    [("resource", .str "db_connection_pool"), ("current_size", .nat 10),
     ("new_size", .nat 25), ("increment_percent", .nat 150)]
  | .resource_scale =>
    [("resource_type", .str "cpu"), ("scale_factor", .rat 1.5),
     ("auto_scale", .bool true)]
  | .circuit_break =>
    [("failure_threshold", .nat 5), ("timeout_seconds", .nat 60),
     ("half_open_requests", .nat 1)]
  | .fallback =>
    [("fallback_service", .str (get_fallback_service e)),
     ("fallback_mode", .str "degraded")]
  | .queue_priority =>
    [("current_priority", .str "normal"), ("new_priority", .str "high"),
     ("boost_factor", .nat 2)]
  | .request_throttle =>
    [("requests_per_minute", .nat 100), ("burst_size", .nat 10)]
  | .service_restart =>
    [("graceful", .bool true), ("timeout_seconds", .nat 30),
     ("health_check", .bool true)]

/-- `ErrorAnalyzer._estimate_success_rate`: fixed prior per strategy. -/
def estimate_success_rate : RecoveryStrategy → ℚ
  | .retry => 0.75
  | .timeout_increase => 0.65
  | .cache_clear => 0.80
  | .pool_increase => 0.85
  | .resource_scale => 0.80
  | .circuit_break => 0.90
  | .fallback => 0.95
  | .queue_priority => 0.70
  | .request_throttle => 0.65
  | .service_restart => 0.88

/-- The `RecoveryAction` dataclass (fields the analyzer sets on creation;
`executed`/`execution_result` keep their defaults there and are omitted). -/
structure RecoveryAction where
  action_id : String
  strategy : RecoveryStrategy
  priority : RecoveryPriority
  service : String
  error_type : String
  parameters : List (String × PVal)
  confidence : ℚ
  estimated_success_rate : ℚ
  created_at : Nat
deriving DecidableEq

/-- `ErrorAnalyzer._generate_recovery_actions`: one action per strategy at
ordinal position `idx`, with confidence `confidence * (1 - idx * 0.1)`. -/
def generate_recovery_actions (now : Nat) (e : ErrorLog)
    (strategies : List RecoveryStrategy) (confidence : ℚ) : List RecoveryAction :=
  strategies.enum.map fun p =>
    { action_id := e.error_id ++ "_" ++ toString p.1
      strategy := p.2
      priority := get_action_priority e p.1
      service := e.service
      error_type := e.error_type
      parameters := get_strategy_parameters e p.2
      confidence := confidence * (1 - (p.1 : ℚ) * 0.1)
      estimated_success_rate := estimate_success_rate p.2
      created_at := now }

/-- One entry of the `recovery_actions` list inside the analysis dictionary
(the projection built by the comprehension in `analyze_error`). -/
structure ActionData where
  strategy : String
  priority : String
  confidence : ℚ
  success_rate : ℚ
  parameters : List (String × PVal)
deriving DecidableEq

/-- The dictionary comprehension in `analyze_error` turning a
`RecoveryAction` into its serialized entry. -/
def toActionData (a : RecoveryAction) : ActionData :=
  { strategy := a.strategy.value
    priority := a.priority.name
    confidence := a.confidence
    success_rate := a.estimated_success_rate
    parameters := a.parameters }

/-- The analysis dictionary returned by `ErrorAnalyzer.analyze_error`.
`error_id` and `recovery_actions` are `Option`s because
`AutoRecoveryExecutor.execute_recovery` reads them with `dict.get`, which
tolerates their absence. -/
structure Analysis where
  error_id : Option String
  error_type : String
  service : String
  severity : String
  timestamp : String
  analysis_timestamp : Nat
  predicted_recovery_strategies : List String
  recovery_actions : Option (List ActionData)
  ml_confidence : ℚ
  pattern_match : Option String
  recommended_priority : String
deriving DecidableEq

/-- `ErrorAnalyzer.analyze_error` on a present error_log. `now` stands for
the wall clock read by `timezone.now()`. -/
def analyze_error (now : Nat) (e : ErrorLog) : Analysis :=
  let strategies := get_recovery_strategies e
  let pm := detect_pattern e
  let confidence := calculate_confidence e
  let actions := generate_recovery_actions now e strategies confidence
  { error_id := some e.error_id
    error_type := e.error_type
    service := e.service
    severity := e.severity
    timestamp := e.timestamp
    analysis_timestamp := now
    predicted_recovery_strategies := strategies.map RecoveryStrategy.value
    recovery_actions := some (actions.map toActionData)
    ml_confidence := confidence
    pattern_match := pm.map Pattern.type_
    recommended_priority :=
      (match pm with
       | some p => p.priority
       | none => RecoveryPriority.MEDIUM).name }

/-- Behaviour of the pluggable strategy-executor boundary for one action:
the routed executor either returns a result dictionary whose `success` key
is `b`, or raises an exception with message `msg`. -/
inductive ExecBehavior where
  | ok (b : Bool)
  | raises (msg : String)
deriving DecidableEq

/-- The strategy strings `_execute_single_action` routes to a stub executor;
any other string falls to the `Unknown strategy` branch. -/
def KNOWN_EXECUTOR_STRATEGIES : List String :=
  ["retry", "timeout_increase", "cache_clear", "pool_increase",
   "resource_scale", "circuit_break", "fallback", "queue_priority",
   "request_throttle", "service_restart"]

/-- The behaviour the source's stub executors exhibit: every known strategy
returns `success=True`; the unknown-strategy branch returns `success=False`;
nothing raises. -/
def source_behavior (a : ActionData) : ExecBehavior :=
  .ok (KNOWN_EXECUTOR_STRATEGIES.contains a.strategy)

/-- The execution record built by `_execute_single_action`
(`result` keeps only the inner `success` key that the caller inspects;
it is `none` when the executor raised). -/
structure Execution where
  strategy : String
  attempted_at : Nat
  success : Bool
  result : Option Bool
  error : Option String
deriving DecidableEq

/-- `AutoRecoveryExecutor._execute_single_action`: route to the executor,
catch any exception and downgrade it to `success=False` with the error
message captured. -/
def execute_single_action (beh : ActionData → ExecBehavior) (now : Nat)
    (a : ActionData) : Execution :=
  match beh a with
  | .ok b =>
    { strategy := a.strategy, attempted_at := now, success := b,
      result := some b, error := none }
  | .raises msg =>
    { strategy := a.strategy, attempted_at := now, success := false,
      result := none, error := some msg }

/-- `AutoRecoveryExecutor._priority_to_number` (default 4 for an unknown
priority string). -/
def priority_to_number (priority : String) : Nat :=
  if priority = "CRITICAL" then 1
  else if priority = "HIGH" then 2
  else if priority = "MEDIUM" then 3
  else if priority = "LOW" then 4
  else 4

/-- The sort key used by `execute_recovery`:
`sorted(actions, key=lambda x: self._priority_to_number(x['priority']))`. -/
def actionRank (a : ActionData) : Nat :=
  priority_to_number a.priority

/-- Stable insertion of one action into an already key-sorted list: the new
element goes in front of the first element of greater-or-equal rank (it came
earlier in the original list, so on ties it stays first). -/
def insertAction (a : ActionData) : List ActionData → List ActionData
  | [] => [a]
  | b :: bs =>
    if actionRank a ≤ actionRank b then a :: b :: bs
    else b :: insertAction a bs

/-- The priority-sorted action list `execute_recovery` iterates. Python's
`sorted` is a stable sort by ascending key; a stable sort by a fixed key is
unique, so this structurally recursive stable insertion sort computes it. -/
def sortActions : List ActionData → List ActionData
  | [] => []
  | a :: rest => insertAction a (sortActions rest)

/-- The mutable loop state of the `for` loop in `execute_recovery`
(`actions_executed`, `actions_failed`, `recovery_success`,
`recovery_message`). -/
structure LoopState where
  executed : List Execution
  failed : List Execution
  success : Bool
  message : String
deriving DecidableEq

/-- The `for` loop of `execute_recovery`: attempt each action in order,
record failures, and break at the first success. -/
def run_actions (beh : ActionData → ExecBehavior) (now : Nat) :
    List ActionData → LoopState
  | [] => { executed := [], failed := [], success := false, message := "" }
  | a :: rest =>
    let e := execute_single_action beh now a
    if e.success then
      { executed := [e], failed := [], success := true,
        message := "Recovery successful: " ++ a.strategy }
    else
      let s := run_actions beh now rest
      { s with failed := e :: s.failed }

/-- The result dictionary of `execute_recovery`. `completed_at` is an
`Option` because the early return for an empty action list never sets it. -/
structure RecoveryResult where
  error_id : Option String
  started_at : Nat
  actions_executed : List Execution
  actions_failed : List Execution
  recovery_success : Bool
  recovery_message : String
  completed_at : Option Nat
deriving DecidableEq

/-- `AutoRecoveryExecutor.execute_recovery`. -/
def execute_recovery (beh : ActionData → ExecBehavior) (now : Nat)
    (analysis : Analysis) : RecoveryResult :=
  let actions := analysis.recovery_actions.getD []
  if actions.isEmpty then
    { error_id := analysis.error_id, started_at := now,
      actions_executed := [], actions_failed := [],
      recovery_success := false,
      recovery_message := "No recovery actions available",
      completed_at := none }
  else
    let s := run_actions beh now (sortActions actions)
    { error_id := analysis.error_id, started_at := now,
      actions_executed := s.executed, actions_failed := s.failed,
      recovery_success := s.success, recovery_message := s.message,
      completed_at := some now }

/-- The channel dictionary configured in `NotificationService.__init__`
(its key list). -/
def notification_channels : List String :=
  ["email", "slack", "sms", "webhook"]

/-- The `preferred_channels.get(severity, ['email'])` selection inside
`NotificationService.notify_developers`. -/
def preferred_channels (severity : String) : List String :=
  if severity = "critical" then ["email", "slack", "sms"]
  else if severity = "high" then ["email", "slack"]
  else if severity = "medium" then ["email"]
  else if severity = "low" then ["email"]
  else if severity = "info" then ["email"]
  else ["email"]

/-! ### Lemmas about the stable priority sort -/

theorem insertAction_perm (a : ActionData) (l : List ActionData) :
    List.Perm (insertAction a l) (a :: l) := by
  induction l with
  | nil => simp [insertAction]
  | cons b bs ih =>
    simp only [insertAction]
    split
    · exact List.Perm.refl _
    · exact (List.Perm.cons b ih).trans (List.Perm.swap a b bs)

theorem sortActions_perm (l : List ActionData) : List.Perm (sortActions l) l := by
  induction l with
  | nil => simp [sortActions]
  | cons a rest ih =>
    exact (insertAction_perm a (sortActions rest)).trans (ih.cons a)

theorem length_sortActions (l : List ActionData) :
    (sortActions l).length = l.length :=
  (sortActions_perm l).length_eq

theorem mem_sortActions {x : ActionData} {l : List ActionData} :
    x ∈ sortActions l ↔ x ∈ l :=
  (sortActions_perm l).mem_iff

theorem mem_insertAction {x a : ActionData} {l : List ActionData} :
    x ∈ insertAction a l ↔ x = a ∨ x ∈ l := by
  rw [(insertAction_perm a l).mem_iff, List.mem_cons]

theorem pairwise_insertAction (a : ActionData) (l : List ActionData)
    (h : l.Pairwise (fun x y => actionRank x ≤ actionRank y)) :
    (insertAction a l).Pairwise (fun x y => actionRank x ≤ actionRank y) := by
  induction l with
  | nil => simp [insertAction]
  | cons b bs ih =>
    simp only [insertAction]
    rcases List.pairwise_cons.mp h with ⟨hb, hbs⟩
    split
    · rename_i hab
      refine List.pairwise_cons.mpr ⟨?_, h⟩
      intro x hx
      rcases List.mem_cons.mp hx with rfl | hx
      · exact hab
      · exact le_trans hab (hb x hx)
    · rename_i hab
      refine List.pairwise_cons.mpr ⟨?_, ih hbs⟩
      intro x hx
      rcases mem_insertAction.mp hx with rfl | hx
      · exact le_of_not_le hab
      · exact hb x hx

theorem sortActions_sorted (l : List ActionData) :
    (sortActions l).Pairwise (fun x y => actionRank x ≤ actionRank y) := by
  induction l with
  | nil => simp [sortActions]
  | cons a rest ih => exact pairwise_insertAction a (sortActions rest) ih

theorem filter_insertAction_eq (a : ActionData) (l : List ActionData) (n : Nat)
    (h : actionRank a = n) :
    (insertAction a l).filter (fun x => actionRank x == n) =
      a :: l.filter (fun x => actionRank x == n) := by
  induction l with
  | nil => simp [insertAction, List.filter, h]
  | cons b bs ih =>
    simp only [insertAction]
    split
    · simp [List.filter, h]
    · rename_i hab
      have hbn : (actionRank b == n) = false := by
        simp only [beq_eq_false_iff_ne, ne_eq]
        intro hb
        exact hab (le_of_eq (h.trans hb.symm) |>.trans (le_refl _))
      simp [List.filter, hbn, ih]

theorem filter_insertAction_ne (a : ActionData) (l : List ActionData) (n : Nat)
    (h : actionRank a ≠ n) :
    (insertAction a l).filter (fun x => actionRank x == n) =
      l.filter (fun x => actionRank x == n) := by
  have han : (actionRank a == n) = false := by
    simp only [beq_eq_false_iff_ne, ne_eq]; exact h
  induction l with
  | nil => simp [insertAction, List.filter, han]
  | cons b bs ih =>
    simp only [insertAction]
    split
    · simp [List.filter, han]
    · simp only [List.filter_cons]
      split <;> simp [ih]

theorem sortActions_stable (l : List ActionData) (n : Nat) :
    (sortActions l).filter (fun x => actionRank x == n) =
      l.filter (fun x => actionRank x == n) := by
  induction l with
  | nil => simp [sortActions]
  | cons a rest ih =>
    simp only [sortActions]
    by_cases h : actionRank a = n
    · rw [filter_insertAction_eq a _ n h, ih]
      have : (actionRank a == n) = true := beq_iff_eq.mpr h
      simp [List.filter, this]
    · rw [filter_insertAction_ne a _ n h, ih]
      have : (actionRank a == n) = false := by
        simp only [beq_eq_false_iff_ne, ne_eq]; exact h
      simp [List.filter, this]

/-! ### Lemmas about the execution loop -/

/-- The sequence of attempts the loop makes on a list: each action in order
until (and including) the first success. -/
def attempts (beh : ActionData → ExecBehavior) (now : Nat) :
    List ActionData → List Execution
  | [] => []
  | a :: rest =>
    let e := execute_single_action beh now a
    if e.success then [e] else e :: attempts beh now rest

theorem run_actions_success_eq_any (beh : ActionData → ExecBehavior)
    (now : Nat) (l : List ActionData) :
    (run_actions beh now l).success =
      l.any (fun a => (execute_single_action beh now a).success) := by
  induction l with
  | nil => simp [run_actions]
  | cons a rest ih =>
    simp only [run_actions, List.any_cons]
    split
    · rename_i h; simp [h]
    · rename_i h
      simp only [Bool.not_eq_true] at h
      simp [h, ih]

theorem run_actions_all_fail (beh : ActionData → ExecBehavior) (now : Nat)
    (l : List ActionData)
    (h : ∀ a ∈ l, (execute_single_action beh now a).success = false) :
    run_actions beh now l =
      { executed := [], failed := l.map (execute_single_action beh now),
        success := false, message := "" } := by
  induction l with
  | nil => simp [run_actions]
  | cons a rest ih =>
    have ha := h a (List.mem_cons_self a rest)
    simp only [run_actions, ha]
    simp only [Bool.false_eq_true, if_false]
    rw [ih fun b hb => h b (List.mem_cons_of_mem a hb)]
    simp [List.map_cons]

theorem run_actions_first_success (beh : ActionData → ExecBehavior)
    (now : Nat) (pre : List ActionData) (a : ActionData)
    (post : List ActionData)
    (hpre : ∀ b ∈ pre, (execute_single_action beh now b).success = false)
    (ha : (execute_single_action beh now a).success = true) :
    run_actions beh now (pre ++ a :: post) =
      { executed := [execute_single_action beh now a],
        failed := pre.map (execute_single_action beh now),
        success := true,
        message := "Recovery successful: " ++ a.strategy } := by
  induction pre with
  | nil => simp [run_actions, ha]
  | cons b bs ih =>
    have hb := hpre b (List.mem_cons_self b bs)
    have ih2 := ih fun c hc => hpre c (List.mem_cons_of_mem b hc)
    simp only [List.cons_append, run_actions, hb, Bool.false_eq_true, if_false,
      List.append_eq, ih2]
    simp [List.map_cons]

theorem run_actions_failed_append_executed (beh : ActionData → ExecBehavior)
    (now : Nat) (l : List ActionData) :
    (run_actions beh now l).failed ++ (run_actions beh now l).executed =
      attempts beh now l := by
  induction l with
  | nil => simp [run_actions, attempts]
  | cons a rest ih =>
    simp only [run_actions, attempts]
    split
    · simp
    · simpa using ih

/-! ### Auxiliary facts about the classifier -/

theorem severity_multiplier_nonneg (s : String) : 0 ≤ severity_multiplier s := by
  unfold severity_multiplier
  split_ifs <;> norm_num

theorem confidence_raw_nonneg (e : ErrorLog) : 0 ≤ confidence_raw e := by
  unfold confidence_raw
  have h := severity_multiplier_nonneg e.severity
  split_ifs <;> nlinarith

theorem calculate_confidence_nonneg (e : ErrorLog) :
    0 ≤ calculate_confidence e := by
  unfold calculate_confidence
  have h := confidence_raw_nonneg e
  split_ifs <;> nlinarith

theorem get_recovery_strategies_length (e : ErrorLog) :
    (get_recovery_strategies e).length ≤ 3 := by
  unfold get_recovery_strategies ERROR_RECOVERY_MAP
  split_ifs <;> simp

theorem generate_length (now : Nat) (e : ErrorLog)
    (strategies : List RecoveryStrategy) (c : ℚ) :
    (generate_recovery_actions now e strategies c).length = strategies.length := by
  simp [generate_recovery_actions, List.enum_eq_enumFrom]

theorem generate_confidence_getElem (now : Nat) (e : ErrorLog)
    (strategies : List RecoveryStrategy) (c : ℚ) (k : Nat)
    (hk : k < (generate_recovery_actions now e strategies c).length) :
    (generate_recovery_actions now e strategies c)[k].confidence =
      c * (1 - (k : ℚ) * 0.1) := by
  simp [generate_recovery_actions, List.enum_eq_enumFrom, List.getElem_enumFrom]

/-! ### Claim theorems -/

/-- C3: for every error event whose category is one of the eight entries of
`ERROR_RECOVERY_MAP`, the strategy lookup returns the candidate strategies in
exactly the order listed in the table for that category; for every category
not in the table it returns exactly `[retry, fallback]` in that order. -/
theorem C3_category_table (e : ErrorLog) :
    (e.error_type = "DatabaseError" →
      get_recovery_strategies e = [.pool_increase, .timeout_increase, .cache_clear]) ∧
    (e.error_type = "TimeoutError" →
      get_recovery_strategies e = [.timeout_increase, .resource_scale, .cache_clear]) ∧
    (e.error_type = "MemoryError" →
      get_recovery_strategies e = [.resource_scale, .cache_clear, .queue_priority]) ∧
    (e.error_type = "ConnectionError" →
      get_recovery_strategies e = [.retry, .circuit_break, .fallback]) ∧
    (e.error_type = "ValidationError" →
      get_recovery_strategies e = [.fallback, .request_throttle]) ∧
    (e.error_type = "AuthenticationError" →
      get_recovery_strategies e = [.retry, .request_throttle]) ∧
    (e.error_type = "APIError" →
      get_recovery_strategies e = [.retry, .timeout_increase, .fallback]) ∧
    (e.error_type = "ServiceUnavailableError" →
      get_recovery_strategies e = [.retry, .circuit_break, .service_restart]) ∧
    (ERROR_RECOVERY_MAP e.error_type = none →
      get_recovery_strategies e = [.retry, .fallback]) := by
  unfold get_recovery_strategies
  refine ⟨?_, ?_, ?_, ?_, ?_, ?_, ?_, ?_, ?_⟩ <;> intro h <;> rw [h] <;> rfl

/-- Closed instances of C3: a category from the table and an unknown one. -/
theorem C3_category_table_witness :
    get_recovery_strategies ⟨"E", "DatabaseError", "s", "low", "t", 0, []⟩ =
      [.pool_increase, .timeout_increase, .cache_clear] ∧
    get_recovery_strategies ⟨"E", "SomeOtherError", "s", "low", "t", 0, []⟩ =
      [.retry, .fallback] :=
  ⟨(C3_category_table ⟨"E", "DatabaseError", "s", "low", "t", 0, []⟩).1 rfl,
   (C3_category_table ⟨"E", "SomeOtherError", "s", "low", "t", 0, []⟩).2.2.2.2.2.2.2.2 rfl⟩

/-- C4: for every error event with severity `critical`, the analysis carries
the `critical_error` pattern, recommended priority CRITICAL, and an overall
confidence of at least 0.75, regardless of category or frequency. -/
theorem C4_critical_priority_confidence (now : Nat) (e : ErrorLog)
    (h : e.severity = "critical") :
    (analyze_error now e).recommended_priority = "CRITICAL" ∧
    (analyze_error now e).pattern_match = some "critical_error" ∧
    (0.75 : ℚ) ≤ (analyze_error now e).ml_confidence := by
  refine ⟨?_, ?_, ?_⟩
  · simp [analyze_error, detect_pattern, h, RecoveryPriority.name]
  · simp [analyze_error, detect_pattern, h]
  · have hm : severity_multiplier e.severity = 0.25 := by
      simp [severity_multiplier, h]
    simp only [analyze_error, calculate_confidence, confidence_raw, hm]
    split_ifs <;> norm_num

/-- Closed instance of C4 at a concrete critical event. -/
theorem C4_critical_priority_confidence_witness :
    (analyze_error 0 ⟨"E", "UnknownKind", "s", "critical", "t", 0, []⟩).recommended_priority
        = "CRITICAL" ∧
    (analyze_error 0 ⟨"E", "UnknownKind", "s", "critical", "t", 0, []⟩).pattern_match
        = some "critical_error" ∧
    (0.75 : ℚ) ≤ (analyze_error 0 ⟨"E", "UnknownKind", "s", "critical", "t", 0, []⟩).ml_confidence :=
  C4_critical_priority_confidence 0 ⟨"E", "UnknownKind", "s", "critical", "t", 0, []⟩ rfl

/-- C9 fails on the code: `NotificationService.__init__` configures four
channels (email, slack, sms, webhook), but `notify_developers` selects only
email, slack and sms for a critical-severity event — webhook is never
selected. -/
theorem C9_counterexample :
    "webhook" ∈ notification_channels ∧
    "webhook" ∉ preferred_channels "critical" := by
  decide

/-- C9 (amended): channel selection depends only on severity: a
critical-severity event is dispatched on email, Slack and SMS (webhook,
though configured, is not selected); a high-severity event on email plus
Slack; a medium- or low-severity event on email only. -/
theorem C9_channels_by_severity (s : String) :
    (s = "critical" → preferred_channels s = ["email", "slack", "sms"]) ∧
    (s = "high" → preferred_channels s = ["email", "slack"]) ∧
    (s = "medium" → preferred_channels s = ["email"]) ∧
    (s = "low" → preferred_channels s = ["email"]) := by
  refine ⟨?_, ?_, ?_, ?_⟩ <;> intro h <;> rw [h] <;> rfl

/-- Closed instances of the amended C9 at each severity. -/
theorem C9_channels_by_severity_witness :
    preferred_channels "critical" = ["email", "slack", "sms"] ∧
    preferred_channels "high" = ["email", "slack"] ∧
    preferred_channels "medium" = ["email"] ∧
    preferred_channels "low" = ["email"] :=
  ⟨(C9_channels_by_severity "critical").1 rfl,
   (C9_channels_by_severity "high").2.1 rfl,
   (C9_channels_by_severity "medium").2.2.1 rfl,
   (C9_channels_by_severity "low").2.2.2 rfl⟩

/-- C10: with an empty or absent recovery-action list, `execute_recovery`
returns the fixed early-exit report (no success, empty executed and failed
lists, message `No recovery actions available`) and never consults the
strategy executors (the result is the same under every executor
behaviour). -/
theorem C10_no_actions (beh beh2 : ActionData → ExecBehavior) (now : Nat)
    (analysis : Analysis) (h : analysis.recovery_actions.getD [] = []) :
    execute_recovery beh now analysis =
      { error_id := analysis.error_id, started_at := now,
        actions_executed := [], actions_failed := [],
        recovery_success := false,
        recovery_message := "No recovery actions available",
        completed_at := none } ∧
    execute_recovery beh now analysis = execute_recovery beh2 now analysis := by
  constructor
  · simp [execute_recovery, h]
  · simp [execute_recovery, h]

/-- Closed instance of C10: an analysis whose recovery_actions key is
absent, under two different executor behaviours. -/
theorem C10_no_actions_witness :
    execute_recovery source_behavior 3
        ⟨some "E", "X", "s", "low", "t", 0, [], none, 0, none, "LOW"⟩ =
      { error_id := some "E", started_at := 3,
        actions_executed := [], actions_failed := [],
        recovery_success := false,
        recovery_message := "No recovery actions available",
        completed_at := none } ∧
    execute_recovery source_behavior 3
        ⟨some "E", "X", "s", "low", "t", 0, [], none, 0, none, "LOW"⟩ =
      execute_recovery (fun _ => .raises "boom") 3
        ⟨some "E", "X", "s", "low", "t", 0, [], none, 0, none, "LOW"⟩ :=
  C10_no_actions source_behavior (fun _ => .raises "boom") 3
    ⟨some "E", "X", "s", "low", "t", 0, [], none, 0, none, "LOW"⟩ rfl

theorem severity_multiplier_unknown (s : String) (h1 : s ≠ "critical")
    (h2 : s ≠ "high") (h3 : s ≠ "medium") : severity_multiplier s = 0 := by
  simp only [severity_multiplier, h1, h2, h3, if_false]
  split_ifs <;> rfl

/-- C7 fails on the code: `_calculate_confidence` gives an unknown severity
the default bonus 0 (the low-severity bonus), not medium's 0.05, so a
malformed severity is not treated like `medium`: at a concrete event the
confidence differs (0.7 versus 0.75). -/
theorem C7_counterexample :
    calculate_confidence ⟨"E", "DatabaseError", "s", "bogus", "t", 0, []⟩ ≠
      calculate_confidence ⟨"E", "DatabaseError", "s", "medium", "t", 0, []⟩ := by
  have d1 : ("bogus" : String) ≠ "critical" := by decide
  have d2 : ("bogus" : String) ≠ "high" := by decide
  have d3 : ("bogus" : String) ≠ "medium" := by decide
  have m1 : ("medium" : String) ≠ "critical" := by decide
  have m2 : ("medium" : String) ≠ "high" := by decide
  have hb : calculate_confidence ⟨"E", "DatabaseError", "s", "bogus", "t", 0, []⟩
      = 0.7 := by
    simp only [calculate_confidence, confidence_raw, severity_multiplier,
      ERROR_RECOVERY_MAP, d1, d2, d3, if_false, if_pos rfl, Option.isSome_some,
      if_true]
    norm_num
  have hm : calculate_confidence ⟨"E", "DatabaseError", "s", "medium", "t", 0, []⟩
      = 0.75 := by
    simp only [calculate_confidence, confidence_raw, severity_multiplier,
      ERROR_RECOVERY_MAP, m1, m2, if_false, if_pos rfl, Option.isSome_some,
      if_true]
    norm_num
  rw [hb, hm]
  norm_num

/-- C7 (amended): the classifier is total (it returns an analysis for every
event, malformed severity included), and an unknown/malformed severity
receives the same treatment as severity `low`: confidence bonus 0.0 — which
differs from medium's 0.05 — while its priority assignment coincides with
the one used for both medium and low severities. -/
theorem C7_unknown_severity (now : Nat) (e : ErrorLog)
    (h1 : e.severity ≠ "critical") (h2 : e.severity ≠ "high")
    (h3 : e.severity ≠ "medium") (h4 : e.severity ≠ "low") :
    severity_multiplier e.severity = severity_multiplier "low" ∧
    calculate_confidence e = calculate_confidence { e with severity := "low" } ∧
    detect_pattern e = detect_pattern { e with severity := "low" } ∧
    (∀ idx, get_action_priority e idx =
      get_action_priority { e with severity := "medium" } idx) ∧
    (∀ idx, get_action_priority e idx =
      get_action_priority { e with severity := "low" } idx) ∧
    analyze_error now e =
      { analyze_error now { e with severity := "low" } with severity := e.severity } := by
  have hlow1 : ("low" : String) ≠ "critical" := by decide
  have hlow2 : ("low" : String) ≠ "high" := by decide
  have hlow3 : ("low" : String) ≠ "medium" := by decide
  have hm : severity_multiplier e.severity = severity_multiplier "low" := by
    rw [severity_multiplier_unknown e.severity h1 h2 h3,
      severity_multiplier_unknown "low" hlow1 hlow2 hlow3]
  have hc : calculate_confidence e = calculate_confidence { e with severity := "low" } := by
    simp only [calculate_confidence, confidence_raw, hm]
  have hd : detect_pattern e = detect_pattern { e with severity := "low" } := by
    simp only [detect_pattern, h1, hlow1, if_false]
  have hp : ∀ idx, get_action_priority e idx =
      get_action_priority { e with severity := "medium" } idx := by
    intro idx
    simp only [get_action_priority, h1, h2, hlow3.symm]
    simp [if_false]
  have hp2 : ∀ idx, get_action_priority e idx =
      get_action_priority { e with severity := "low" } idx := by
    intro idx
    simp only [get_action_priority, h1, h2, hlow1, hlow2, if_false]
  have hgen2 : ∀ (strategies : List RecoveryStrategy) (c : ℚ),
      generate_recovery_actions now { e with severity := "low" } strategies c =
      generate_recovery_actions now e strategies c := by
    intro strategies c
    unfold generate_recovery_actions
    apply List.map_congr_left
    intro p hpm
    rw [show get_action_priority { e with severity := "low" } p.1 =
      get_action_priority e p.1 from (hp2 p.1).symm]
    rfl
  have hstrat : get_recovery_strategies { e with severity := "low" } =
      get_recovery_strategies e := rfl
  refine ⟨hm, hc, hd, hp, hp2, ?_⟩
  simp only [analyze_error, hstrat, hd, hc, hgen2]

/-- Closed instance of the amended C7 at a concrete malformed severity. -/
theorem C7_unknown_severity_witness :
    severity_multiplier "bogus" = severity_multiplier "low" ∧
    calculate_confidence ⟨"E", "DatabaseError", "s", "bogus", "t", 0, []⟩ =
      calculate_confidence ⟨"E", "DatabaseError", "s", "low", "t", 0, []⟩ :=
  ⟨(C7_unknown_severity 0 ⟨"E", "DatabaseError", "s", "bogus", "t", 0, []⟩
      (by decide) (by decide) (by decide) (by decide)).1,
   (C7_unknown_severity 0 ⟨"E", "DatabaseError", "s", "bogus", "t", 0, []⟩
      (by decide) (by decide) (by decide) (by decide)).2.1⟩

/-- The serialized action entries of an analysis drop the clock-stamped
`created_at` field, so they agree across clock readings. -/
theorem map_toActionData_generate (now1 now2 : Nat) (e : ErrorLog)
    (strategies : List RecoveryStrategy) (c : ℚ) :
    (generate_recovery_actions now1 e strategies c).map toActionData =
      (generate_recovery_actions now2 e strategies c).map toActionData := by
  unfold generate_recovery_actions toActionData
  simp only [List.map_map]
  rfl

/-- The ClassificationResult content of an analysis: every field except the
wall-clock `analysis_timestamp` (the serialized actions carry no clock
field). -/
def classification_of (a : Analysis) :
    Option String × String × String × String × String × List String ×
      Option (List ActionData) × ℚ × Option String × String :=
  (a.error_id, a.error_type, a.service, a.severity, a.timestamp,
   a.predicted_recovery_strategies, a.recovery_actions, a.ml_confidence,
   a.pattern_match, a.recommended_priority)

/-- C8: the classifier is deterministic: on identical error events, two
invocations of `analyze_error` — even at different wall-clock instants —
produce identical ClassificationResults (all analysis content except the
`analysis_timestamp` bookkeeping field, which merely echoes the clock);
there is no randomness and no other clock dependence. -/
theorem C8_deterministic (now1 now2 : Nat) (e1 e2 : ErrorLog) (h : e1 = e2) :
    classification_of (analyze_error now1 e1) =
      classification_of (analyze_error now2 e2) := by
  subst h
  simp only [classification_of, analyze_error]
  rw [map_toActionData_generate now1 now2]

/-- Closed instance of C8: same event, clock readings 0 and 42. -/
theorem C8_deterministic_witness :
    classification_of (analyze_error 0 ⟨"E", "TimeoutError", "django", "high", "t", 2, []⟩) =
      classification_of (analyze_error 42 ⟨"E", "TimeoutError", "django", "high", "t", 2, []⟩) :=
  C8_deterministic 0 42 ⟨"E", "TimeoutError", "django", "high", "t", 2, []⟩
    ⟨"E", "TimeoutError", "django", "high", "t", 2, []⟩ rfl

/-- C5: the confidence assigned to the k-th candidate action (0-indexed)
built from the classifier's base confidence is exactly
`base × (1 − 0.1 × k)`; for a fixed base those confidences are
non-increasing in k and, on every candidate list the selector actually
produces (at most three strategies), never negative. -/
theorem C5_confidence_formula (now : Nat) (e : ErrorLog) (j k : Nat)
    (hj : j < (generate_recovery_actions now e (get_recovery_strategies e)
      (calculate_confidence e)).length)
    (hk : k < (generate_recovery_actions now e (get_recovery_strategies e)
      (calculate_confidence e)).length)
    (hjk : j ≤ k) :
    (generate_recovery_actions now e (get_recovery_strategies e)
      (calculate_confidence e))[k].confidence =
      calculate_confidence e * (1 - (k : ℚ) * 0.1) ∧
    (generate_recovery_actions now e (get_recovery_strategies e)
      (calculate_confidence e))[k].confidence ≤
      (generate_recovery_actions now e (get_recovery_strategies e)
        (calculate_confidence e))[j].confidence ∧
    0 ≤ (generate_recovery_actions now e (get_recovery_strategies e)
      (calculate_confidence e))[k].confidence := by
  have hkc := generate_confidence_getElem now e _ _ k hk
  have hjc := generate_confidence_getElem now e _ _ j hj
  have hc0 := calculate_confidence_nonneg e
  have hlen : (generate_recovery_actions now e (get_recovery_strategies e)
      (calculate_confidence e)).length ≤ 3 := by
    rw [generate_length]
    exact get_recovery_strategies_length e
  have hk2 : (k : ℚ) ≤ 2 := by
    have hk3 : k ≤ 2 := by omega
    exact_mod_cast hk3
  have hjk2 : (j : ℚ) ≤ (k : ℚ) := by exact_mod_cast hjk
  refine ⟨hkc, ?_, ?_⟩
  · rw [hkc, hjc]
    have h1 : (1 - (k : ℚ) * 0.1) ≤ (1 - (j : ℚ) * 0.1) := by nlinarith
    exact mul_le_mul_of_nonneg_left h1 hc0
  · rw [hkc]
    have h1 : 0 ≤ (1 - (k : ℚ) * 0.1) := by nlinarith
    exact mul_nonneg hc0 h1

/-- Closed instance of C5 at the three-candidate ConnectionError list,
comparing positions 0 and 2. -/
theorem C5_confidence_formula_witness :
    (generate_recovery_actions 0 ⟨"E", "ConnectionError", "django", "high", "t", 1, []⟩
      (get_recovery_strategies ⟨"E", "ConnectionError", "django", "high", "t", 1, []⟩)
      (calculate_confidence ⟨"E", "ConnectionError", "django", "high", "t", 1, []⟩))[2].confidence =
      calculate_confidence ⟨"E", "ConnectionError", "django", "high", "t", 1, []⟩ *
        (1 - (2 : ℚ) * 0.1) ∧
    (generate_recovery_actions 0 ⟨"E", "ConnectionError", "django", "high", "t", 1, []⟩
      (get_recovery_strategies ⟨"E", "ConnectionError", "django", "high", "t", 1, []⟩)
      (calculate_confidence ⟨"E", "ConnectionError", "django", "high", "t", 1, []⟩))[2].confidence ≤
      (generate_recovery_actions 0 ⟨"E", "ConnectionError", "django", "high", "t", 1, []⟩
        (get_recovery_strategies ⟨"E", "ConnectionError", "django", "high", "t", 1, []⟩)
        (calculate_confidence ⟨"E", "ConnectionError", "django", "high", "t", 1, []⟩))[0].confidence ∧
    0 ≤ (generate_recovery_actions 0 ⟨"E", "ConnectionError", "django", "high", "t", 1, []⟩
      (get_recovery_strategies ⟨"E", "ConnectionError", "django", "high", "t", 1, []⟩)
      (calculate_confidence ⟨"E", "ConnectionError", "django", "high", "t", 1, []⟩))[2].confidence :=
  C5_confidence_formula 0 ⟨"E", "ConnectionError", "django", "high", "t", 1, []⟩ 0 2
    (by decide) (by decide) (by decide)

/-- `execute_recovery` on a present, non-empty action list is the loop over
the stable priority sort. -/
theorem execute_recovery_eq (beh : ActionData → ExecBehavior) (now : Nat)
    (analysis : Analysis) (actions : List ActionData)
    (h : analysis.recovery_actions = some actions) (hne : actions ≠ []) :
    execute_recovery beh now analysis =
      { error_id := analysis.error_id, started_at := now,
        actions_executed := (run_actions beh now (sortActions actions)).executed,
        actions_failed := (run_actions beh now (sortActions actions)).failed,
        recovery_success := (run_actions beh now (sortActions actions)).success,
        recovery_message := (run_actions beh now (sortActions actions)).message,
        completed_at := some now } := by
  simp only [execute_recovery, h, Option.getD_some]
  rw [if_neg (by simpa [List.isEmpty_iff] using hne)]

/-- C2: the executor attempts actions in ascending priority-rank order
(CRITICAL rank 1 before HIGH rank 2 before MEDIUM rank 3 before LOW rank 4)
regardless of the supplied order, with equal priorities kept in their
original relative order: the iterated list is a permutation of the input,
pairwise non-decreasing in rank, filter-stable on every rank, and the
report's attempt sequence (failures then the success, in attempt order) is
exactly the loop over that sorted list. -/
theorem C2_priority_order (beh : ActionData → ExecBehavior) (now : Nat)
    (actions : List ActionData) (analysis : Analysis)
    (h : analysis.recovery_actions = some actions) (hne : actions ≠ []) :
    (priority_to_number "CRITICAL" = 1 ∧ priority_to_number "HIGH" = 2 ∧
      priority_to_number "MEDIUM" = 3 ∧ priority_to_number "LOW" = 4) ∧
    List.Perm (sortActions actions) actions ∧
    (sortActions actions).Pairwise
      (fun x y => priority_to_number x.priority ≤ priority_to_number y.priority) ∧
    (∀ n, (sortActions actions).filter (fun x => actionRank x == n) =
      actions.filter (fun x => actionRank x == n)) ∧
    (execute_recovery beh now analysis).actions_failed ++
        (execute_recovery beh now analysis).actions_executed =
      attempts beh now (sortActions actions) := by
  refine ⟨⟨rfl, rfl, rfl, rfl⟩, sortActions_perm actions, ?_,
    sortActions_stable actions, ?_⟩
  · simpa [actionRank] using sortActions_sorted actions
  · rw [execute_recovery_eq beh now analysis actions h hne]
    exact run_actions_failed_append_executed beh now (sortActions actions)

/-- Closed instance of C2: a LOW, CRITICAL, LOW, HIGH input is attempted as
CRITICAL, HIGH, LOW, LOW with the two LOW entries in original order. -/
theorem C2_priority_order_witness :
    List.Perm
      (sortActions [⟨"a", "LOW", 0, 0, []⟩, ⟨"b", "CRITICAL", 0, 0, []⟩,
        ⟨"c", "LOW", 0, 0, []⟩, ⟨"d", "HIGH", 0, 0, []⟩])
      [⟨"a", "LOW", 0, 0, []⟩, ⟨"b", "CRITICAL", 0, 0, []⟩,
        ⟨"c", "LOW", 0, 0, []⟩, ⟨"d", "HIGH", 0, 0, []⟩] ∧
    (∀ n, (sortActions [⟨"a", "LOW", 0, 0, []⟩, ⟨"b", "CRITICAL", 0, 0, []⟩,
        ⟨"c", "LOW", 0, 0, []⟩, ⟨"d", "HIGH", 0, 0, []⟩]).filter
        (fun x => actionRank x == n) =
      [⟨"a", "LOW", 0, 0, []⟩, ⟨"b", "CRITICAL", 0, 0, []⟩,
        ⟨"c", "LOW", 0, 0, []⟩, ⟨"d", "HIGH", 0, 0, []⟩].filter
        (fun x => actionRank x == n)) :=
  ⟨(C2_priority_order source_behavior 0
      [⟨"a", "LOW", 0, 0, []⟩, ⟨"b", "CRITICAL", 0, 0, []⟩,
        ⟨"c", "LOW", 0, 0, []⟩, ⟨"d", "HIGH", 0, 0, []⟩]
      ⟨some "E", "X", "s", "low", "t", 0, [],
        some [⟨"a", "LOW", 0, 0, []⟩, ⟨"b", "CRITICAL", 0, 0, []⟩,
          ⟨"c", "LOW", 0, 0, []⟩, ⟨"d", "HIGH", 0, 0, []⟩], 0, none, "LOW"⟩
      rfl (by decide)).2.1,
   (C2_priority_order source_behavior 0
      [⟨"a", "LOW", 0, 0, []⟩, ⟨"b", "CRITICAL", 0, 0, []⟩,
        ⟨"c", "LOW", 0, 0, []⟩, ⟨"d", "HIGH", 0, 0, []⟩]
      ⟨some "E", "X", "s", "low", "t", 0, [],
        some [⟨"a", "LOW", 0, 0, []⟩, ⟨"b", "CRITICAL", 0, 0, []⟩,
          ⟨"c", "LOW", 0, 0, []⟩, ⟨"d", "HIGH", 0, 0, []⟩], 0, none, "LOW"⟩
      rfl (by decide)).2.2.2.1⟩

/-- C1: for any assignment of outcomes to the strategy executors, the loop
over the priority-sorted actions stops at the first success: overall
recovery_success is the disjunction of the attempted outcomes; when the
sorted list splits as failures-prefix, first success, rest, the executed
list holds exactly that success and the failed list exactly the prefix; and
when every executor fails, recovery_success is false and the failed count
equals the candidate count. -/
theorem C1_stop_at_first_success (beh : ActionData → ExecBehavior)
    (now : Nat) (actions : List ActionData) (analysis : Analysis)
    (h : analysis.recovery_actions = some actions) :
    ((execute_recovery beh now analysis).recovery_success =
      (sortActions actions).any
        (fun a => (execute_single_action beh now a).success)) ∧
    (∀ pre a post, sortActions actions = pre ++ a :: post →
      (∀ b ∈ pre, (execute_single_action beh now b).success = false) →
      (execute_single_action beh now a).success = true →
      (execute_recovery beh now analysis).actions_executed =
        [execute_single_action beh now a] ∧
      (execute_recovery beh now analysis).actions_failed =
        pre.map (execute_single_action beh now)) ∧
    ((∀ a ∈ actions, (execute_single_action beh now a).success = false) →
      (execute_recovery beh now analysis).recovery_success = false ∧
      (execute_recovery beh now analysis).actions_failed.length =
        actions.length) := by
  by_cases hne : actions = []
  · subst hne
    refine ⟨?_, ?_, ?_⟩
    · simp [execute_recovery, h, sortActions]
    · intro pre a post hdec
      exact absurd hdec.symm (by simp [sortActions])
    · intro hall
      simp [execute_recovery, h]
  · rw [execute_recovery_eq beh now analysis actions h hne]
    refine ⟨run_actions_success_eq_any beh now (sortActions actions), ?_, ?_⟩
    · intro pre a post hdec hpre ha
      rw [hdec, run_actions_first_success beh now pre a post hpre ha]
      exact ⟨rfl, rfl⟩
    · intro hall
      have hall2 : ∀ a ∈ sortActions actions,
          (execute_single_action beh now a).success = false := by
        intro a ha
        exact hall a (mem_sortActions.mp ha)
      rw [run_actions_all_fail beh now (sortActions actions) hall2]
      constructor
      · rfl
      · simp [length_sortActions]

/-- Closed instance of C1: two actions, the higher-priority one forced to
fail and the lower-priority one to succeed. -/
theorem C1_stop_at_first_success_witness :
    (execute_recovery
      (fun a => .ok (a.strategy = "fallback")) 0
      ⟨some "E", "X", "s", "low", "t", 0, [],
        some [⟨"fallback", "LOW", 0, 0, []⟩, ⟨"retry", "HIGH", 0, 0, []⟩],
        0, none, "LOW"⟩).actions_executed =
      [execute_single_action (fun a => .ok (a.strategy = "fallback")) 0
        ⟨"fallback", "LOW", 0, 0, []⟩] ∧
    (execute_recovery
      (fun a => .ok (a.strategy = "fallback")) 0
      ⟨some "E", "X", "s", "low", "t", 0, [],
        some [⟨"fallback", "LOW", 0, 0, []⟩, ⟨"retry", "HIGH", 0, 0, []⟩],
        0, none, "LOW"⟩).actions_failed =
      [⟨"retry", "HIGH", 0, 0, []⟩].map
        (execute_single_action (fun a => .ok (a.strategy = "fallback")) 0) :=
  (C1_stop_at_first_success (fun a => .ok (a.strategy = "fallback")) 0
    [⟨"fallback", "LOW", 0, 0, []⟩, ⟨"retry", "HIGH", 0, 0, []⟩]
    ⟨some "E", "X", "s", "low", "t", 0, [],
      some [⟨"fallback", "LOW", 0, 0, []⟩, ⟨"retry", "HIGH", 0, 0, []⟩],
      0, none, "LOW"⟩ rfl).2.1
    [⟨"retry", "HIGH", 0, 0, []⟩] ⟨"fallback", "LOW", 0, 0, []⟩ []
    (by decide) (by decide) (by decide)

/-- C6: a raising strategy executor is caught: the action is recorded as a
failed attempt with success false and the error message captured, and the
loop continues with the remaining candidates exactly as it would have
without the raise; `execute_recovery` itself is a total function of the
behaviour, so no executor-level exception escapes it. -/
theorem C6_exception_caught (beh : ActionData → ExecBehavior) (now : Nat)
    (a : ActionData) (msg : String) (rest : List ActionData)
    (h : beh a = .raises msg) :
    (execute_single_action beh now a).success = false ∧
    (execute_single_action beh now a).error = some msg ∧
    run_actions beh now (a :: rest) =
      { executed := (run_actions beh now rest).executed,
        failed := execute_single_action beh now a ::
          (run_actions beh now rest).failed,
        success := (run_actions beh now rest).success,
        message := (run_actions beh now rest).message } := by
  have h1 : execute_single_action beh now a =
      { strategy := a.strategy, attempted_at := now, success := false,
        result := none, error := some msg } := by
    simp [execute_single_action, h]
  refine ⟨by rw [h1], by rw [h1], ?_⟩
  simp only [run_actions, h1]
  simp

/-- Closed instance of C6: the first of two actions raises, the loop
records it as failed and continues to the second. -/
theorem C6_exception_caught_witness :
    (execute_single_action (fun _ => .raises "boom") 0
      ⟨"retry", "HIGH", 0, 0, []⟩).success = false ∧
    (execute_single_action (fun _ => .raises "boom") 0
      ⟨"retry", "HIGH", 0, 0, []⟩).error = some "boom" ∧
    run_actions (fun _ => .raises "boom") 0
        [⟨"retry", "HIGH", 0, 0, []⟩, ⟨"fallback", "LOW", 0, 0, []⟩] =
      { executed := (run_actions (fun _ => .raises "boom") 0
          [⟨"fallback", "LOW", 0, 0, []⟩]).executed,
        failed := execute_single_action (fun _ => .raises "boom") 0
            ⟨"retry", "HIGH", 0, 0, []⟩ ::
          (run_actions (fun _ => .raises "boom") 0
            [⟨"fallback", "LOW", 0, 0, []⟩]).failed,
        success := (run_actions (fun _ => .raises "boom") 0
          [⟨"fallback", "LOW", 0, 0, []⟩]).success,
        message := (run_actions (fun _ => .raises "boom") 0
          [⟨"fallback", "LOW", 0, 0, []⟩]).message } :=
  C6_exception_caught (fun _ => .raises "boom") 0
    ⟨"retry", "HIGH", 0, 0, []⟩ "boom" [⟨"fallback", "LOW", 0, 0, []⟩] rfl

end FeedingHearts
